import Mathlib

/-!
Verification of the resilient session-authenticated transport layer of the
`ibagents` client: the retrying HTTP transport (`ib_client/core/http.py`,
function `_request_with_retry`) and the session lifecycle manager
(`ib_client/core/session.py`, class `SessionAdapter`).

The Python code is shallowly embedded: each HTTP attempt's outcome is drawn
from an environment script, machine integers are `Nat`, wall-clock times and
delays are `ℚ`, and the coroutine control flow becomes explicit recursion.
-/

/-- A JSON scalar value as far as the session layer inspects payloads.
The session code only ever reads the `"authenticated"` key and tests its
Python truthiness, so container values are not needed by any theorem. -/
inductive JVal
  | jnull
  | jbool (b : Bool)
  | jnum (n : Int)
  | jstr (s : String)
deriving DecidableEq, Repr

/-- Python truthiness of a JSON scalar (`if not status.get(...)`). -/
def pyTruthy : JVal → Bool
  | JVal.jnull => false
  | JVal.jbool b => b
  | JVal.jnum n => n != 0
  | JVal.jstr s => s != ""

/-- A JSON object payload (`Dict[str, Any]` as returned by `response.json()`). -/
def Payload := List (String × JVal)
deriving DecidableEq, Repr

/-- Embeds `status.get("authenticated", False)` from `session.py` line 46. -/
def getAuthenticated (p : Payload) : JVal :=
  (List.lookup "authenticated" p).getD (JVal.jbool false)

/-! ## Transport: `_request_with_retry` (http.py lines 21-68) -/

/-- Retry configuration of `_request_with_retry` (`max_retries`, `retry_delay`).
The backoff multiplier is the literal `2` in the source (`2 ** attempt`). -/
structure RetryCfg where
  max_retries : Nat
  retry_delay : ℚ
deriving DecidableEq, Repr

/-- What the environment does on one HTTP attempt: a response with a status
code and an optional body (`None` models empty `response.content`), an
`httpx.RequestError`, a non-`RequestError` exception whose text contains
"timeout", or any other exception. -/
inductive Attempt
  | resp (code : Nat) (body : Option Payload)
  | reqError
  | excTimeout
  | excOther
deriving DecidableEq, Repr

/-- Terminal failures of `_request_with_retry`: `IBAPIError`s raised by the
classification branches, plus re-raised foreign exceptions. -/
inductive TErr
  | authRequired                -- IBAPIError("Authentication required", 401)
  | forbidden                   -- IBAPIError("Access forbidden", 403)
  | serverError (code : Nat)    -- IBAPIError("Server error: ...", code)
  | networkError                -- IBAPIError("Request failed after ... retries")
  | raisedStatus (code : Nat)   -- httpx.HTTPStatusError from raise_for_status
  | raisedTimeout               -- re-raised timeout-text exception
  | raisedOther                 -- re-raised arbitrary exception
  | maxRetriesExceeded          -- final raise after the loop (unreachable)
deriving DecidableEq, Repr

/-- Observable outcome of one full `_request_with_retry` call: the returned
payload or raised error, the number of attempts issued, and the list of
backoff sleeps in order. -/
structure RunOut where
  result : Except TErr Payload
  attempts : Nat
  sleeps : List ℚ

/-- The retry loop body from attempt index `a` with `fuel` loop iterations
remaining (`for attempt in range(max_retries + 1)` gives initial fuel
`max_retries + 1`; the fuel models the loop bound, every `continue` is
guarded by `a < max_retries` so the fuel never runs out from the top entry).
`raise_for_status` on a 4xx yields a message containing "timeout" only for
status 408 ("Request Timeout"), which the broad `except Exception` handler
therefore retries. -/
def runFrom (cfg : RetryCfg) (script : Nat → Attempt) : Nat → Nat → RunOut
  | _, 0 => ⟨Except.error TErr.maxRetriesExceeded, 0, []⟩
  | a, fuel + 1 =>
    match script a with
    | Attempt.resp code body =>
      if code = 401 then ⟨Except.error TErr.authRequired, 1, []⟩
      else if code = 403 then ⟨Except.error TErr.forbidden, 1, []⟩
      else if 500 ≤ code then
        if a < cfg.max_retries then
          let r := runFrom cfg script (a + 1) fuel
          ⟨r.result, r.attempts + 1, cfg.retry_delay * 2 ^ a :: r.sleeps⟩
        else ⟨Except.error (TErr.serverError code), 1, []⟩
      else if 400 ≤ code then
        if code = 408 ∧ a < cfg.max_retries then
          let r := runFrom cfg script (a + 1) fuel
          ⟨r.result, r.attempts + 1, cfg.retry_delay * 2 ^ a :: r.sleeps⟩
        else ⟨Except.error (TErr.raisedStatus code), 1, []⟩
      else
        match body with
        | none => ⟨Except.ok [], 1, []⟩
        | some p => ⟨Except.ok p, 1, []⟩
    | Attempt.reqError =>
      if a < cfg.max_retries then
        let r := runFrom cfg script (a + 1) fuel
        ⟨r.result, r.attempts + 1, cfg.retry_delay * 2 ^ a :: r.sleeps⟩
      else ⟨Except.error TErr.networkError, 1, []⟩
    | Attempt.excTimeout =>
      if a < cfg.max_retries then
        let r := runFrom cfg script (a + 1) fuel
        ⟨r.result, r.attempts + 1, cfg.retry_delay * 2 ^ a :: r.sleeps⟩
      else ⟨Except.error TErr.raisedTimeout, 1, []⟩
    | Attempt.excOther => ⟨Except.error TErr.raisedOther, 1, []⟩

/-- One full `_request_with_retry(method, path, max_retries, retry_delay)`
call against the environment `script`. -/
def request_with_retry (cfg : RetryCfg) (script : Nat → Attempt) : RunOut :=
  runFrom cfg script 0 (cfg.max_retries + 1)

/-- Status code of a response attempt (0 for exceptions; used only under a
hypothesis that the attempt is a response). -/
def attemptCode : Attempt → Nat
  | Attempt.resp code _ => code
  | _ => 0

/-- Whether an attempt is an HTTP response (vs a raised exception). -/
def isResp : Attempt → Bool
  | Attempt.resp _ _ => true
  | _ => false

theorem runFrom_attempts_le (cfg : RetryCfg) (script : Nat → Attempt) :
    ∀ fuel a, (runFrom cfg script a fuel).attempts ≤ fuel := by
  intro fuel
  induction fuel with
  | zero => intro a; simp [runFrom]
  | succ n ih =>
    intro a
    unfold runFrom
    cases script a <;> simp only
    case resp code body =>
      split
      · simp
      · split
        · simp
        · split
          · split
            · simpa using Nat.succ_le_succ (ih (a + 1))
            · simp
          · split
            · split
              · simpa using Nat.succ_le_succ (ih (a + 1))
              · simp
            · cases body <;> simp
    case reqError =>
      split
      · simpa using Nat.succ_le_succ (ih (a + 1))
      · simp
    case excTimeout =>
      split
      · simpa using Nat.succ_le_succ (ih (a + 1))
      · simp
    case excOther => simp

/-- Claim C3: a request whose every attempt gets a status ≥ 500 performs
exactly `max_retries + 1` attempts and fails with `ServerError` carrying the
last observed status code; and no execution ever exceeds `max_retries + 1`
attempts. -/
theorem server_errors_exhaust_retries (cfg : RetryCfg) (script : Nat → Attempt)
    (h : ∀ i, i ≤ cfg.max_retries → isResp (script i) = true ∧ 500 ≤ attemptCode (script i)) :
    (request_with_retry cfg script).result
        = Except.error (TErr.serverError (attemptCode (script cfg.max_retries)))
      ∧ (request_with_retry cfg script).attempts = cfg.max_retries + 1
      ∧ ∀ script' : Nat → Attempt,
          (request_with_retry cfg script').attempts ≤ cfg.max_retries + 1 := by
  have main : ∀ fuel a, a + fuel = cfg.max_retries + 1 → a ≤ cfg.max_retries →
      (runFrom cfg script a fuel).result
          = Except.error (TErr.serverError (attemptCode (script cfg.max_retries)))
        ∧ (runFrom cfg script a fuel).attempts = fuel := by
    intro fuel
    induction fuel with
    | zero => intro a ha hale; exact absurd ha (by omega)
    | succ n ih =>
      intro a ha hale
      obtain ⟨hresp, hcode⟩ := h a hale
      unfold runFrom
      cases hs : script a with
      | resp code body =>
        rw [hs] at hcode
        simp only [attemptCode] at hcode
        have h401 : ¬ code = 401 := by omega
        have h403 : ¬ code = 403 := by omega
        simp only [h401, if_false, h403, hcode, if_true]
        by_cases hlt : a < cfg.max_retries
        · have hn : a + 1 + n = cfg.max_retries + 1 := by omega
          obtain ⟨ih1, ih2⟩ := ih (a + 1) hn (by omega)
          simp [hlt, ih1, ih2]
        · have haeq : a = cfg.max_retries := by omega
          have hn0 : n = 0 := by omega
          subst hn0
          simp only [hlt, if_false]
          constructor
          · rw [← haeq, hs]; rfl
          · trivial
      | reqError => rw [hs] at hresp; simp [isResp] at hresp
      | excTimeout => rw [hs] at hresp; simp [isResp] at hresp
      | excOther => rw [hs] at hresp; simp [isResp] at hresp
  obtain ⟨h1, h2⟩ := main (cfg.max_retries + 1) 0 (by omega) (by omega)
  exact ⟨h1, h2, fun script' => runFrom_attempts_le cfg script' _ 0⟩

/-- Witness for C3: with `max_retries = 3` and every attempt answering 503,
the call makes 4 attempts and fails with `ServerError 503`. -/
theorem server_errors_exhaust_retries_witness :
    (request_with_retry ⟨3, 1⟩ (fun _ => Attempt.resp 503 none)).result
        = Except.error (TErr.serverError 503)
      ∧ (request_with_retry ⟨3, 1⟩ (fun _ => Attempt.resp 503 none)).attempts = 3 + 1 := by
  have h := server_errors_exhaust_retries ⟨3, 1⟩ (fun _ => Attempt.resp 503 none)
    (fun i _ => ⟨rfl, by norm_num [attemptCode]⟩)
  exact ⟨h.1, h.2.1⟩

/-- Claim C4: a 401 response fails immediately with `AuthRequired` and a 403
fails immediately with `Forbidden`, after exactly one attempt with no sleeps;
moreover a 401/403 arriving at any attempt index halts the loop at once,
for every retry configuration. -/
theorem auth_and_forbidden_never_retried (cfg : RetryCfg) (script : Nat → Attempt)
    (body : Option Payload) :
    (script 0 = Attempt.resp 401 body →
      (request_with_retry cfg script).result = Except.error TErr.authRequired
        ∧ (request_with_retry cfg script).attempts = 1
        ∧ (request_with_retry cfg script).sleeps = [])
    ∧ (script 0 = Attempt.resp 403 body →
      (request_with_retry cfg script).result = Except.error TErr.forbidden
        ∧ (request_with_retry cfg script).attempts = 1
        ∧ (request_with_retry cfg script).sleeps = [])
    ∧ (∀ a fuel, script a = Attempt.resp 401 body →
        runFrom cfg script a (fuel + 1) = ⟨Except.error TErr.authRequired, 1, []⟩)
    ∧ (∀ a fuel, script a = Attempt.resp 403 body →
        runFrom cfg script a (fuel + 1) = ⟨Except.error TErr.forbidden, 1, []⟩) := by
  refine ⟨fun h0 => ?_, fun h0 => ?_, fun a fuel ha => ?_, fun a fuel ha => ?_⟩
  · simp [request_with_retry, runFrom, h0]
  · simp [request_with_retry, runFrom, h0]
  · simp [runFrom, ha]
  · simp [runFrom, ha]

/-- Witness for C4: with `max_retries = 3`, a constant-401 environment fails
with `AuthRequired` after a single attempt. -/
theorem auth_and_forbidden_never_retried_witness :
    (request_with_retry ⟨3, 1⟩ (fun _ => Attempt.resp 401 none)).result
        = Except.error TErr.authRequired
      ∧ (request_with_retry ⟨3, 1⟩ (fun _ => Attempt.resp 401 none)).attempts = 1
      ∧ (request_with_retry ⟨3, 1⟩ (fun _ => Attempt.resp 401 none)).sleeps = [] :=
  (auth_and_forbidden_never_retried ⟨3, 1⟩ (fun _ => Attempt.resp 401 none) none).1 rfl


theorem runFrom_attempts_pos (cfg : RetryCfg) (script : Nat → Attempt) (a fuel : Nat) :
    1 ≤ (runFrom cfg script a (fuel + 1)).attempts := by
  unfold runFrom
  cases script a <;> simp only
  case resp code body =>
    split
    · simp
    · split
      · simp
      · split
        · split <;> simp
        · split
          · split <;> simp
          · cases body <;> simp
  case reqError => split <;> simp
  case excTimeout => split <;> simp
  case excOther => simp

theorem runFrom_sleeps_schedule (cfg : RetryCfg) (script : Nat → Attempt) :
    ∀ fuel a, cfg.max_retries + 1 ≤ a + fuel →
      (runFrom cfg script a fuel).sleeps
        = (List.range' a ((runFrom cfg script a fuel).attempts - 1)).map
            (fun i => cfg.retry_delay * 2 ^ i) := by
  intro fuel
  induction fuel with
  | zero => intro a ha; simp [runFrom]
  | succ n ih =>
    intro a ha
    have key : a < cfg.max_retries →
        cfg.retry_delay * 2 ^ a :: (runFrom cfg script (a + 1) n).sleeps
          = (List.range' a ((runFrom cfg script (a + 1) n).attempts + 1 - 1)).map
              (fun i => cfg.retry_delay * 2 ^ i) := by
      intro hlt
      obtain ⟨m, rfl⟩ : ∃ m, n = m + 1 := ⟨n - 1, by omega⟩
      obtain ⟨k, hk⟩ : ∃ k, (runFrom cfg script (a + 1) (m + 1)).attempts = k + 1 :=
        ⟨(runFrom cfg script (a + 1) (m + 1)).attempts - 1,
          by have := runFrom_attempts_pos cfg script (a + 1) m; omega⟩
      have ihs := ih (a + 1) (by omega)
      rw [hk] at ihs ⊢
      simp only [Nat.add_sub_cancel, List.range'_succ, List.map_cons, ihs]
    unfold runFrom
    cases script a <;> simp only
    case resp code body =>
      by_cases h401 : code = 401
      · simp [h401]
      · by_cases h403 : code = 403
        · simp [h401, h403]
        · by_cases h500 : 500 ≤ code
          · simp only [h401, h403, h500, if_false, if_true]
            by_cases hlt : a < cfg.max_retries
            · simpa [hlt] using key hlt
            · simp [hlt]
          · by_cases h400 : 400 ≤ code
            · simp only [h401, h403, h500, h400, if_false, if_true]
              by_cases h408 : code = 408 ∧ a < cfg.max_retries
              · simpa [h408] using key h408.2
              · simp [h408]
            · simp only [h401, h403, h500, h400, if_false]
              cases body <;> simp
    case reqError =>
      by_cases hlt : a < cfg.max_retries
      · simpa [hlt] using key hlt
      · simp [hlt]
    case excTimeout =>
      by_cases hlt : a < cfg.max_retries
      · simpa [hlt] using key hlt
      · simp [hlt]
    case excOther => simp

/-- The environment of spec §8 property 1: 500, 500, then 200 with body
`{"ok": true}`. -/
def script_500_500_200 : Nat → Attempt :=
  fun i => if i < 2 then Attempt.resp 500 none
           else Attempt.resp 200 (some [("ok", JVal.jbool true)])

/-- Claim C7: every retried attempt sleeps `retry_delay * 2 ^ attempt`
(attempt starting at 0), so the sleep list of any run is exactly the
exponential-backoff schedule over its retried attempts; concretely, with
`max_retries = 3` and `retry_delay = 1`, responses 500, 500, 200 succeed
after exactly 3 attempts having slept 1 then 2, a total of at least 3. -/
theorem backoff_schedule (cfg : RetryCfg) (script : Nat → Attempt) :
    ((request_with_retry cfg script).sleeps
        = (List.range ((request_with_retry cfg script).attempts - 1)).map
            (fun i => cfg.retry_delay * 2 ^ i))
      ∧ (request_with_retry ⟨3, 1⟩ script_500_500_200).result
          = Except.ok [("ok", JVal.jbool true)]
      ∧ (request_with_retry ⟨3, 1⟩ script_500_500_200).attempts = 3
      ∧ (request_with_retry ⟨3, 1⟩ script_500_500_200).sleeps = [1, 2]
      ∧ (1 : ℚ) + 2 ≤ ((request_with_retry ⟨3, 1⟩ script_500_500_200).sleeps).sum := by
  refine ⟨?_, by rfl, by rfl,
    by norm_num [request_with_retry, runFrom, script_500_500_200],
    by norm_num [request_with_retry, runFrom, script_500_500_200]⟩
  have h := runFrom_sleeps_schedule cfg script (cfg.max_retries + 1) 0 (by omega)
  rw [List.range_eq_range']
  exact h

/-! ## Session manager: `SessionAdapter` (session.py) -/

/-- State of the spawned keep-alive `asyncio.Task`: still running, or
completed (after cancellation). `logout` cancels the task but never sets the
handle back to `None`; the code distinguishes only
`task is None or task.done()`. -/
inductive TaskSt
  | running
  | done
deriving DecidableEq, Repr

/-- The mutable fields of `SessionAdapter.__init__` that the session logic
reads and writes (`_auth_check_interval` is fixed at 300 seconds and
`_keep_alive_interval` at 60 seconds by the constructor). -/
structure SessionState where
  session_status : Option Payload
  last_auth_check : Option ℚ
  auth_check_interval : ℚ
  keep_alive_task : Option TaskSt
deriving DecidableEq, Repr

/-- Model of `SessionAdapter.__init__`. -/
def initSession : SessionState :=
  { session_status := none
    last_auth_check := none
    auth_check_interval := 300
    keep_alive_task := none }

/-- Outcome of one `_post` transport call as seen by the session layer:
a returned payload, an `IBAPIError` whose `status_code` is 401, any other
`IBAPIError`, or a non-`IBAPIError` exception. The session layer consumes
these outcomes from an oracle list, one per HTTP call it issues; an
exhausted oracle behaves like a connection-level exception. -/
inductive CallResult
  | ok (p : Payload)
  | err401
  | errOther
  | exc
deriving DecidableEq, Repr

/-- Errors `_check_auth_status` can raise to its caller. -/
inductive SErr
  | notAuthenticated  -- IBAPIError("Session not authenticated. ...")
  | reauthFailed      -- IBAPIError("Reauthentication failed. Manual login may be required.")
  | apiOther          -- re-raised IBAPIError with status_code ≠ 401
  | raisedExc         -- propagated non-IBAPIError exception
deriving DecidableEq, Repr

/-- Endpoints the session layer posts to, in call order. -/
inductive Ep
  | authStatus  -- POST /iserver/auth/status
  | reauth      -- POST /iserver/reauthenticate
  | tickle      -- POST /tickle
  | logoutEp    -- POST /logout
deriving DecidableEq, Repr

/-- Result of one `_check_auth_status` invocation: the returned payload or
raised error, the state after it, the unconsumed oracle, and the endpoints
called. -/
structure CheckOut where
  result : Except SErr Payload
  state : SessionState
  rest : List CallResult
  calls : List Ep
deriving Repr

/-- Model of `SessionAdapter._check_auth_status` (session.py lines 40-63), including
`_reauthenticate` (lines 65-72) inlined at its only call site. On a 401 the
code re-authenticates and then calls itself recursively with no bound; any
exception during re-authentication (of any type, an exhausted oracle
included) becomes IBAPIError("Reauthentication failed"), which the
`except IBAPIError` handler of the *current* frame does not catch since it
is raised from within that handler. A payload whose `"authenticated"` entry
is absent or falsy raises after the cache has already been overwritten. -/
def check_auth_status (s : SessionState) : List CallResult → CheckOut
  | [] => ⟨Except.error SErr.raisedExc, s, [], [Ep.authStatus]⟩
  | CallResult.ok p :: rest =>
    let s1 := { s with session_status := some p }
    if pyTruthy (getAuthenticated p) then
      let s2 := if s1.keep_alive_task = none ∨ s1.keep_alive_task = some TaskSt.done
                then { s1 with keep_alive_task := some TaskSt.running } else s1
      ⟨Except.ok p, s2, rest, [Ep.authStatus]⟩
    else ⟨Except.error SErr.notAuthenticated, s1, rest, [Ep.authStatus]⟩
  | CallResult.err401 :: rest =>
    match rest with
    | [] => ⟨Except.error SErr.reauthFailed, s, [], [Ep.authStatus, Ep.reauth]⟩
    | CallResult.ok _ :: rest2 =>
      let o := check_auth_status s rest2
      ⟨o.result, o.state, o.rest, Ep.authStatus :: Ep.reauth :: o.calls⟩
    | _ :: rest2 => ⟨Except.error SErr.reauthFailed, s, rest2, [Ep.authStatus, Ep.reauth]⟩
  | CallResult.errOther :: rest => ⟨Except.error SErr.apiOther, s, rest, [Ep.authStatus]⟩
  | CallResult.exc :: rest => ⟨Except.error SErr.raisedExc, s, rest, [Ep.authStatus]⟩

/-- Result of one `_ensure_live` invocation. -/
structure EnsureOut where
  result : Except SErr Unit
  state : SessionState
  rest : List CallResult
  calls : List Ep
deriving Repr

/-- The staleness test of `_ensure_live` (session.py lines 34-35):
`last_auth_check is None or now - last_auth_check > interval`. -/
def isStale (s : SessionState) (now : ℚ) : Bool :=
  match s.last_auth_check with
  | none => true
  | some t => decide (s.auth_check_interval < now - t)

/-- Model of `SessionAdapter._ensure_live` (session.py lines 25-38). The body runs
under `_session_lock`, so one invocation is modelled as one atomic step;
`current_time` is read once before the check. `_last_auth_check` is assigned
only after `_check_auth_status` returns without raising. -/
def ensure_live (s : SessionState) (now : ℚ) (oracle : List CallResult) : EnsureOut :=
  if isStale s now then
    let o := check_auth_status s oracle
    match o.result with
    | Except.ok _ =>
      ⟨Except.ok (), { o.state with last_auth_check := some now }, o.rest, o.calls⟩
    | Except.error e => ⟨Except.error e, o.state, o.rest, o.calls⟩
  else ⟨Except.ok (), s, oracle, []⟩

/-- Model of `SessionAdapter.logout` (session.py lines 100-116): cancel the keep-alive
task if it is running and await its completion (the handle stays, now done);
post to `/logout` with any failure swallowed; then clear the cached status
and timestamp. The `/logout` call outcome never affects the state. -/
def logout (s : SessionState) : SessionState :=
  let s1 := if s.keep_alive_task = some TaskSt.running
            then { s with keep_alive_task := some TaskSt.done } else s
  { s1 with session_status := none, last_auth_check := none }

theorem check_auth_status_facts (s : SessionState) (oracle : List CallResult) :
    (check_auth_status s oracle).state.last_auth_check = s.last_auth_check
    ∧ (check_auth_status s oracle).state.auth_check_interval = s.auth_check_interval
    ∧ (∀ p, (check_auth_status s oracle).result = Except.ok p →
        (check_auth_status s oracle).state.keep_alive_task = some TaskSt.running)
    ∧ (∀ e, (check_auth_status s oracle).result = Except.error e →
        (check_auth_status s oracle).state.keep_alive_task = s.keep_alive_task)
    ∧ Ep.authStatus ∈ (check_auth_status s oracle).calls := by
  induction oracle using check_auth_status.induct s with
  | case1 => simp [check_auth_status]
  | case2 p rest h =>
    by_cases hk : s.keep_alive_task = none ∨ s.keep_alive_task = some TaskSt.done
    · simp [check_auth_status, h, hk]
    · have hrun : s.keep_alive_task = some TaskSt.running := by
        rcases hkk : s.keep_alive_task with _ | t
        · exact absurd (Or.inl hkk) hk
        · cases t
          · rfl
          · exact absurd (Or.inr hkk) hk
      simp [check_auth_status, h, hk, hrun]
  | case3 p rest h => simp [check_auth_status, h]
  | case4 => simp [check_auth_status]
  | case5 p rest2 ih =>
    obtain ⟨ih1, ih2, ih3, ih4, ih5⟩ := ih
    simp only [check_auth_status]
    exact ⟨ih1, ih2, ih3, ih4, by simp⟩
  | case6 head rest2 hne =>
    cases head
    case ok p => exact (hne p rfl).elim
    all_goals simp [check_auth_status]
  | case7 rest => simp [check_auth_status]
  | case8 rest => simp [check_auth_status]

/-- Claim C9: the session layer treats a payload as not-authenticated exactly
when its `"authenticated"` entry is absent or Python-falsy; in particular the
transport turns a 2xx response with empty body into the empty map, which the
status check then rejects as not authenticated. -/
theorem empty_or_falsy_payload_not_authenticated (cfg : RetryCfg) (script : Nat → Attempt)
    (code : Nat) (h2xx : 200 ≤ code ∧ code < 300) (hscript : script 0 = Attempt.resp code none) :
    (request_with_retry cfg script).result = Except.ok []
    ∧ (∀ s rest, (check_auth_status s (CallResult.ok [] :: rest)).result
        = Except.error SErr.notAuthenticated)
    ∧ (∀ s p rest, ((check_auth_status s (CallResult.ok p :: rest)).result
        = Except.error SErr.notAuthenticated ↔ pyTruthy (getAuthenticated p) = false)) := by
  refine ⟨?_, ?_, ?_⟩
  · have h401 : ¬ code = 401 := by omega
    have h403 : ¬ code = 403 := by omega
    have h500 : ¬ 500 ≤ code := by omega
    have h400 : ¬ 400 ≤ code := by omega
    simp [request_with_retry, runFrom, hscript, h401, h403, h500, h400]
  · intro s rest
    simp [check_auth_status, getAuthenticated, pyTruthy]
  · intro s p rest
    by_cases h : pyTruthy (getAuthenticated p) = true
    · simp [check_auth_status, h]
    · simp only [Bool.not_eq_true] at h
      simp [check_auth_status, h]

/-- Witness for C9: a 204 empty-body response produces `{}` and feeding `{}`
to the status check raises the not-authenticated error. -/
theorem empty_or_falsy_payload_not_authenticated_witness :
    (request_with_retry ⟨3, 1⟩ (fun _ => Attempt.resp 204 none)).result = Except.ok []
    ∧ (check_auth_status initSession [CallResult.ok []]).result
        = Except.error SErr.notAuthenticated := by
  have h := empty_or_falsy_payload_not_authenticated ⟨3, 1⟩ (fun _ => Attempt.resp 204 none)
    204 (by omega) rfl
  exact ⟨h.1, h.2.1 initSession []⟩

/-- Claim C10: `_reauthenticate` never inspects the reauth response payload
(the run is identical for any payload, an explicitly unauthenticated one
included, and proceeds to retry the status check), and converts every raised
exception, of any type, into the `ReauthenticationFailed` error. -/
theorem reauthenticate_ignores_payload :
    (∀ s p q rest, check_auth_status s (CallResult.err401 :: CallResult.ok p :: rest)
        = check_auth_status s (CallResult.err401 :: CallResult.ok q :: rest))
    ∧ (∀ s p rest, (check_auth_status s (CallResult.err401 :: CallResult.ok p :: rest)).result
        = (check_auth_status s rest).result)
    ∧ (∀ s rest,
        (check_auth_status s (CallResult.err401 :: CallResult.err401 :: rest)).result
          = Except.error SErr.reauthFailed
        ∧ (check_auth_status s (CallResult.err401 :: CallResult.errOther :: rest)).result
          = Except.error SErr.reauthFailed
        ∧ (check_auth_status s (CallResult.err401 :: CallResult.exc :: rest)).result
          = Except.error SErr.reauthFailed) :=
  ⟨fun _ _ _ _ => rfl, fun _ _ _ => rfl, fun _ _ => ⟨rfl, rfl, rfl⟩⟩

/-- Counterexample to claim C1: inside a single `ensure_live` invocation, an
environment answering 401, reauth-ok, 401, reauth-failure produces TWO calls
to the re-authentication endpoint, not exactly one: the recursive retry is
unbounded while 401s persist. -/
theorem reauth_cycle_counterexample :
    (ensure_live initSession 0
        [CallResult.err401, CallResult.ok [], CallResult.err401, CallResult.errOther]).calls
      = [Ep.authStatus, Ep.reauth, Ep.authStatus, Ep.reauth]
    ∧ (ensure_live initSession 0
        [CallResult.err401, CallResult.ok [], CallResult.err401, CallResult.errOther]).result
      = Except.error SErr.reauthFailed
    ∧ ((ensure_live initSession 0
        [CallResult.err401, CallResult.ok [], CallResult.err401, CallResult.errOther]).calls.count
          Ep.reauth ≠ 1) :=
  ⟨rfl, rfl, by decide⟩

/-- Exactly `k` completed 401-then-reauthenticate rounds at the head of a
status-check call trace. -/
def altCalls : Nat → List Ep
  | 0 => []
  | k + 1 => Ep.authStatus :: Ep.reauth :: altCalls k

/-- Claim C1 as amended: every 401-failed status check is followed by exactly
one reauthentication call (the call trace strictly alternates), and a failed
reauthentication is terminal with `ReauthenticationFailed`; but the
reauth-and-retry cycle repeats for as long as status checks keep failing
with 401 — the recursion has no bound of one cycle per invocation, and a
retried check failing for any non-401 reason propagates that error instead
of `ReauthenticationFailed`. -/
theorem reauth_cycles_one_per_401 (s : SessionState) (oracle : List CallResult) :
    ∃ k, ((check_auth_status s oracle).calls = altCalls k ++ [Ep.authStatus]
            ∧ (check_auth_status s oracle).result ≠ Except.error SErr.reauthFailed)
       ∨ ((check_auth_status s oracle).calls = altCalls (k + 1)
            ∧ (check_auth_status s oracle).result = Except.error SErr.reauthFailed) := by
  induction oracle using check_auth_status.induct s with
  | case1 =>
    exact ⟨0, Or.inl ⟨by simp [check_auth_status, altCalls], by simp [check_auth_status]⟩⟩
  | case2 p rest h =>
    exact ⟨0, Or.inl ⟨by simp [check_auth_status, h, altCalls],
      by simp [check_auth_status, h]⟩⟩
  | case3 p rest h =>
    exact ⟨0, Or.inl ⟨by simp [check_auth_status, h, altCalls],
      by simp [check_auth_status, h]⟩⟩
  | case4 =>
    exact ⟨0, Or.inr ⟨by simp [check_auth_status, altCalls], by simp [check_auth_status]⟩⟩
  | case5 p rest2 ih =>
    obtain ⟨k, hk | hk⟩ := ih
    · refine ⟨k + 1, Or.inl ⟨?_, ?_⟩⟩
      · simp only [check_auth_status, altCalls, List.cons_append]
        simp [hk.1]
      · simpa only [check_auth_status] using hk.2
    · refine ⟨k + 1, Or.inr ⟨?_, ?_⟩⟩
      · simp only [check_auth_status, altCalls]
        simp [hk.1, altCalls]
      · simpa only [check_auth_status] using hk.2
  | case6 head rest2 hne =>
    cases head
    case ok p => exact (hne p rfl).elim
    all_goals exact ⟨0, Or.inr ⟨by simp [check_auth_status, altCalls],
      by simp [check_auth_status]⟩⟩
  | case7 rest =>
    exact ⟨0, Or.inl ⟨by simp [check_auth_status, altCalls], by simp [check_auth_status]⟩⟩
  | case8 rest =>
    exact ⟨0, Or.inl ⟨by simp [check_auth_status, altCalls], by simp [check_auth_status]⟩⟩

theorem ensure_live_stale_calls (s : SessionState) (now : ℚ) (oracle : List CallResult)
    (h : isStale s now = true) :
    (ensure_live s now oracle).calls = (check_auth_status s oracle).calls := by
  simp only [ensure_live, h, if_true]
  split <;> rfl

/-- Claim C8: when `_ensure_live` raises, `_last_auth_check` is untouched
(the assignment on line 38 is skipped), so any later invocation at a time at
least as large is still stale and issues a fresh auth-status request; yet a
2xx payload has already overwritten `_session_status` wholesale before the
not-authenticated error is raised — the cache update is not atomic with
validation. -/
theorem error_leaves_cache_stale (s : SessionState) (now : ℚ) (oracle : List CallResult) :
    (∀ e, (ensure_live s now oracle).result = Except.error e →
      (ensure_live s now oracle).state.last_auth_check = s.last_auth_check
      ∧ ∀ now2 oracle2, now ≤ now2 →
          Ep.authStatus ∈ (ensure_live (ensure_live s now oracle).state now2 oracle2).calls)
    ∧ (∀ p rest, isStale s now = true → pyTruthy (getAuthenticated p) = false →
        (ensure_live s now (CallResult.ok p :: rest)).result
            = Except.error SErr.notAuthenticated
        ∧ (ensure_live s now (CallResult.ok p :: rest)).state.session_status = some p) := by
  constructor
  · intro e he
    by_cases hst : isStale s now = true
    · obtain ⟨f1, f2, f3, f4, f5⟩ := check_auth_status_facts s oracle
      cases hres : (check_auth_status s oracle).result with
      | ok p => exact absurd he (by simp [ensure_live, hst, hres])
      | error e2 =>
        have hstate : (ensure_live s now oracle).state = (check_auth_status s oracle).state := by
          simp [ensure_live, hst, hres]
        constructor
        · rw [hstate, f1]
        · intro now2 oracle2 hle
          have hst2 : isStale (ensure_live s now oracle).state now2 = true := by
            rw [hstate]
            rcases hl : s.last_auth_check with _ | t
            · simp [isStale, f1, hl]
            · have hlt : s.auth_check_interval < now - t := by
                simpa [isStale, hl] using hst
              simp only [isStale, f1, f2, hl]
              rw [decide_eq_true_iff]
              linarith
          obtain ⟨g1, g2, g3, g4, g5⟩ :=
            check_auth_status_facts (ensure_live s now oracle).state oracle2
          rw [ensure_live_stale_calls _ _ _ hst2]
          exact g5
    · exact absurd he (by simp [ensure_live, hst])
  · intro p rest hst hfalse
    constructor <;> simp [ensure_live, hst, check_auth_status, hfalse]

/-- Witness for C8: from the initial state, a 2xx-but-empty status payload
raises, leaves the timestamp unset, poisons the cached status with `{}`, and
the next invocation checks again. -/
theorem error_leaves_cache_stale_witness :
    (ensure_live initSession 0 [CallResult.ok []]).result
        = Except.error SErr.notAuthenticated
    ∧ (ensure_live initSession 0 [CallResult.ok []]).state.session_status = some []
    ∧ (ensure_live initSession 0 [CallResult.ok []]).state.last_auth_check = none
    ∧ Ep.authStatus ∈ (ensure_live (ensure_live initSession 0 [CallResult.ok []]).state 1 []).calls := by
  have h := error_leaves_cache_stale initSession 0 [CallResult.ok []]
  have h2 := h.2 [] [] rfl rfl
  have h1 := h.1 SErr.notAuthenticated h2.1
  exact ⟨h2.1, h2.2, h1.1.trans rfl, h1.2 1 [] (by norm_num)⟩

/-- A batch of `_ensure_live` invocations on one session, serialized by
`_session_lock`: concurrent callers are modelled as a list of invocation
times executed in lock-acquisition order, threading state and the shared
transport oracle. -/
def ensure_seq : SessionState → List CallResult → List ℚ →
    SessionState × List CallResult × List Ep
  | s, oracle, [] => (s, oracle, [])
  | s, oracle, t :: ts =>
    let o := ensure_live s t oracle
    let r := ensure_seq o.state o.rest ts
    (r.1, r.2.1, o.calls ++ r.2.2)

theorem ensure_seq_fresh (ts : List ℚ) : ∀ s oracle, (∀ t ∈ ts, isStale s t = false) →
    ensure_seq s oracle ts = (s, oracle, []) := by
  induction ts with
  | nil => intro s oracle _; rfl
  | cons t ts ih =>
    intro s oracle h
    have hs : isStale s t = false := h t (by simp)
    have hrest : ∀ u ∈ ts, isStale s u = false := fun u hu => h u (by simp [hu])
    simp only [ensure_seq, ensure_live, hs, Bool.false_eq_true, if_false]
    simp [ih s oracle hrest]

/-- Claim C2: any number of callers arriving before any check has started,
all within the 300-second freshness window of the first, issue exactly one
auth-status request in total: the first caller's check populates the cache
under the lock, and every later caller re-evaluates staleness under the lock
and performs no call at all. -/
theorem single_flight (t0 : ℚ) (ts : List ℚ) (p : Payload) (oracle : List CallResult)
    (hauth : pyTruthy (getAuthenticated p) = true)
    (hwindow : ∀ t ∈ ts, t0 ≤ t ∧ t ≤ t0 + 300) :
    (ensure_seq initSession (CallResult.ok p :: oracle) (t0 :: ts)).2.2 = [Ep.authStatus] := by
  have hfirst : ensure_live initSession t0 (CallResult.ok p :: oracle)
      = ⟨Except.ok (), ⟨some p, some t0, 300, some TaskSt.running⟩, oracle, [Ep.authStatus]⟩ := by
    simp [ensure_live, check_auth_status, hauth, initSession, isStale]
  have hskip : ensure_seq (⟨some p, some t0, 300, some TaskSt.running⟩ : SessionState) oracle ts
      = (⟨some p, some t0, 300, some TaskSt.running⟩, oracle, []) := by
    apply ensure_seq_fresh
    intro t ht
    obtain ⟨h1, h2⟩ := hwindow t ht
    simp only [isStale]
    rw [decide_eq_false_iff_not]
    intro hgt
    linarith
  simp [ensure_seq, hfirst, hskip]

/-- Witness for C2: three callers at times 0, 100 and 300 with an
authenticated first response produce exactly one auth-status call. -/
theorem single_flight_witness :
    (ensure_seq initSession
        [CallResult.ok [("authenticated", JVal.jbool true)]] [0, 100, 300]).2.2
      = [Ep.authStatus] := by
  apply single_flight 0 [100, 300] [("authenticated", JVal.jbool true)] [] rfl
  intro t ht
  rcases List.mem_cons.mp ht with rfl | ht2
  · constructor <;> norm_num
  · rcases List.mem_cons.mp ht2 with rfl | ht3
    · constructor <;> norm_num
    · simp at ht3

/-- Externally-invoked session operations: an `_ensure_live` call at a given
time against a transport oracle, or a `logout` call (whose `/logout` POST
outcome is swallowed and never affects state). -/
inductive SOp
  | ensure (now : ℚ) (oracle : List CallResult)
  | doLogout

/-- One operation on the session, paired with the ghost flag "has completed
at least one successful auth check and has not since been logged out": the
flag becomes true when an `_ensure_live` invocation actually ran a check
(nonempty call list) and returned success, becomes false on `logout`, and is
untouched by a skipped (fresh-cache) invocation or a failed check. -/
def sessionStep : SessionState × Bool → SOp → SessionState × Bool
  | (s, g), SOp.ensure now oracle =>
    let o := ensure_live s now oracle
    (o.state,
      if o.calls = [] then g
      else match o.result with
        | Except.ok _ => true
        | Except.error _ => g)
  | (s, _), SOp.doLogout => (logout s, false)

/-- A session's whole history from construction. -/
def sessionRun (ops : List SOp) : SessionState × Bool :=
  List.foldl sessionStep (initSession, false) ops

theorem sessionStep_inv (sg : SessionState × Bool) (op : SOp)
    (h : sg.1.keep_alive_task = some TaskSt.running ↔ sg.2 = true) :
    (sessionStep sg op).1.keep_alive_task = some TaskSt.running
      ↔ (sessionStep sg op).2 = true := by
  obtain ⟨s, g⟩ := sg
  cases op with
  | doLogout =>
    simp only [sessionStep, logout]
    by_cases hr : s.keep_alive_task = some TaskSt.running <;> simp [hr]
  | ensure now oracle =>
    simp only [sessionStep]
    by_cases hst : isStale s now = true
    · obtain ⟨f1, f2, f3, f4, f5⟩ := check_auth_status_facts s oracle
      have hne : ¬ (ensure_live s now oracle).calls = [] := by
        rw [ensure_live_stale_calls _ _ _ hst]
        intro hc
        rw [hc] at f5
        simp at f5
      cases hres : (check_auth_status s oracle).result with
      | ok p =>
        have hstate : (ensure_live s now oracle).state.keep_alive_task
            = some TaskSt.running := by
          simp only [ensure_live, hst, if_true, hres]
          exact f3 p hres
        have hresult : (ensure_live s now oracle).result = Except.ok () := by
          simp [ensure_live, hst, hres]
        simp [hne, hresult, hstate]
      | error e =>
        have hstate : (ensure_live s now oracle).state.keep_alive_task
            = s.keep_alive_task := by
          simp only [ensure_live, hst, if_true, hres]
          exact f4 e hres
        have hresult : (ensure_live s now oracle).result = Except.error e := by
          simp [ensure_live, hst, hres]
        simpa [hne, hresult, hstate] using h
    · have hid : ensure_live s now oracle = ⟨Except.ok (), s, oracle, []⟩ := by
        simp [ensure_live, hst]
      simpa [hid] using h

/-- Claim C5: in every reachable state of a session, a RUNNING keep-alive
task exists iff at least one auth check has succeeded with no logout since:
the task is started by the first successful check and `logout` cancels it to
completion (the done handle remains, and the code treats a done handle
exactly like `None`) while clearing the cached status and timestamp. -/
theorem keep_alive_task_iff (ops : List SOp) :
    ((sessionRun ops).1.keep_alive_task = some TaskSt.running
      ↔ (sessionRun ops).2 = true)
    ∧ (∀ s, (logout s).session_status = none ∧ (logout s).last_auth_check = none
        ∧ (logout s).keep_alive_task ≠ some TaskSt.running) := by
  constructor
  · have main : ∀ (l : List SOp) (sg : SessionState × Bool),
        (sg.1.keep_alive_task = some TaskSt.running ↔ sg.2 = true) →
        ((List.foldl sessionStep sg l).1.keep_alive_task = some TaskSt.running
          ↔ (List.foldl sessionStep sg l).2 = true) := by
      intro l
      induction l with
      | nil => intro sg h; exact h
      | cons op l ih => intro sg h; exact ih _ (sessionStep_inv sg op h)
    exact main ops (initSession, false) (by simp [initSession])
  · intro s
    simp only [logout]
    by_cases hr : s.keep_alive_task = some TaskSt.running <;> simp [hr]

/-- One cycle of `_keep_alive_loop` as decided by the environment: a normal
sleep-then-tickle (succeeding or failing inside `_tickle`, which swallows
non-cancellation exceptions), some other exception caught by the loop's
broad handler, or a `CancelledError` delivered at either await point
(`asyncio.CancelledError` is a `BaseException`, so `_tickle`'s
`except Exception` does not swallow it). -/
inductive Cyc
  | ok            -- sleep, tickle sent successfully
  | fail          -- sleep, tickle HTTP call raised; logged and swallowed
  | err           -- other exception in the cycle; logged, loop continues
  | cancelSleep   -- cancelled while sleeping: no tickle this cycle, break
  | cancelTickle  -- cancelled during the tickle await, break
deriving DecidableEq, Repr

/-- Observable outcome of running `_keep_alive_loop` against a finite cycle
script: `/tickle` calls issued, whether the loop has terminated, and whether
it terminated by propagating an exception. -/
structure LoopOut where
  pings : Nat
  exited : Bool
  raised : Bool
deriving DecidableEq, Repr

/-- Model of `SessionAdapter._keep_alive_loop` (session.py lines 82-93): an infinite
`while True` whose only `break` lives in the `except asyncio.CancelledError`
arm; all other exceptions are logged and the loop continues. An exhausted
script means the loop is still running. -/
def keep_alive_loop : List Cyc → LoopOut
  | [] => ⟨0, false, false⟩
  | Cyc.ok :: rest =>
    let r := keep_alive_loop rest
    ⟨r.pings + 1, r.exited, r.raised⟩
  | Cyc.fail :: rest =>
    let r := keep_alive_loop rest
    ⟨r.pings + 1, r.exited, r.raised⟩
  | Cyc.err :: rest =>
    let r := keep_alive_loop rest
    ⟨r.pings, r.exited, r.raised⟩
  | Cyc.cancelSleep :: _ => ⟨0, true, false⟩
  | Cyc.cancelTickle :: _ => ⟨1, true, false⟩

/-- Claim C6: once cancellation is delivered — `logout` cancels the task and
awaits it, leaving no running task — no later cycle contributes a ping: the
ping count is independent of everything after the cancellation point; the
loop exits exactly when cancelled (ping failures never stop it) and never
propagates an exception, handling cancellation cooperatively. -/
theorem no_ping_after_logout :
    (∀ pre post,
        (keep_alive_loop (pre ++ Cyc.cancelSleep :: post)).pings
          = (keep_alive_loop (pre ++ [Cyc.cancelSleep])).pings
        ∧ (keep_alive_loop (pre ++ Cyc.cancelTickle :: post)).pings
          = (keep_alive_loop (pre ++ [Cyc.cancelTickle])).pings)
    ∧ (∀ cycles, (keep_alive_loop cycles).raised = false)
    ∧ (∀ cycles, ((keep_alive_loop cycles).exited = true
        ↔ Cyc.cancelSleep ∈ cycles ∨ Cyc.cancelTickle ∈ cycles))
    ∧ (∀ s, (logout s).keep_alive_task ≠ some TaskSt.running) := by
  refine ⟨?_, ?_, ?_, ?_⟩
  · intro pre post
    induction pre with
    | nil => exact ⟨rfl, rfl⟩
    | cons c pre ih =>
      obtain ⟨ih1, ih2⟩ := ih
      cases c <;> simp [keep_alive_loop, List.cons_append, ih1, ih2]
  · intro cycles
    induction cycles with
    | nil => rfl
    | cons c rest ih => cases c <;> simp [keep_alive_loop, ih]
  · intro cycles
    induction cycles with
    | nil => simp [keep_alive_loop]
    | cons c rest ih => cases c <;> simp [keep_alive_loop, ih]
  · intro s
    simp only [logout]
    by_cases hr : s.keep_alive_task = some TaskSt.running <;> simp [hr]
